import Mathlib

/-!
Shallow embedding of the flash orchestration pipeline of `UniFlash/core.py`,
together with theorems about its observable behaviour.

External effects (subprocess outcomes, the filesystem walks, the network
fetch, admin status, the GUI kill flag) are collected in an explicit
environment `Env`.  Each modelled Python function becomes a Lean function
returning a value in `RunM`, a pair of an `Except` result (Python
exceptions, including `SystemExit`) and a trace of the externally visible
actions (`Event`s) in program order.  Python's `subprocess.run` never
checks the exit status in the wipe/convert/create steps, so those exit
codes appear only inside the corresponding trace events, exactly as the
source discards them.
-/

namespace UniFlash

/-- Colors passed to `print_with_color` (`core.py:38`). -/
inductive Color
  | plain
  | green
  | red
  | yellow
deriving DecidableEq, Repr

/-- Markers for the four destructive device-preparation calls issued, in
source order, at `core.py:221-224`: `format_target_device` (detect or
create an initial partitioning state), the signature wipe, the fresh
partition table, and the data-partition create/format. -/
inductive Stage
  | detectOrCreate
  | wipeSignatures
  | partitionTable
  | createFilesystem
deriving DecidableEq, Repr

/-- Externally visible actions of the pipeline, in program order.
`msg` is a `print_with_color` call; the `dp...` events are the diskpart
invocations with the exit code the external command returned (which the
source never inspects); `targetMountFailBranch` marks entry into the
`core.py:227-228` error branch; `killCheck` marks a `check_kill_signal`
call; `cleanupRun` marks the `cleanup` call in the `finally` block. -/
inductive Event
  | msg (text : String) (color : Color)
  | stage (s : Stage)
  | psGetPartitions (dev : String)
  | dpClean (dev : String) (exitCode : Nat)
  | dpConvert (dev style : String) (exitCode : Nat)
  | dpCreateFormat (dev fs label : String) (exitCode : Nat)
  | mountSource (media mp : String)
  | targetMountFailBranch
  | killCheck
  | reporterStart
  | copyFile (src dst : String)
  | reporterStopSet
  | fetchImage
  | installImage (dest : String)
  | cleanupRun
deriving DecidableEq, Repr

/-- A Python exception: `SystemExit` (raised by `sys.exit()`, not caught by
`except Exception`) or an ordinary `Exception` carrying its message. -/
inductive PyExc
  | systemExit
  | pyError (emsg : String)
deriving DecidableEq, Repr

/-- Outcome of `flash_device`: `return 1`, fall-through (Python returns
`None`), or a propagating `SystemExit`. -/
inductive FlashResult
  | retOne
  | retNone
  | sysExit
deriving DecidableEq, Repr

/-- The environment: every external fact `core.py` observes during one
`flash_device` run.  `walkFiles` is the `os.walk` enumeration (joined path
and size of every regular file) seen by `check_fat32_filesize_limitation`;
`copyWalk` is the `os.walk` result (dirpath and filenames per directory)
seen by `copy_filesystem_files`; `copyFail` tells which paths make
`shutil.copy2` raise.  The `...Exc` fields inject the exception message a
given step raises (`none` = no exception). -/
structure Env where
  guiPresent : Bool
  guiKill : Bool
  isAdmin : Bool
  srcMp : String
  tgtMp : String
  tempDir : String
  mountSourceExc : Option String
  mountSourceOk : Bool
  walkFiles : List (String × Nat)
  hasPartitions : Bool
  formatExc : Option String
  wipeExc : Option String
  wipeExit : Nat
  tableExc : Option String
  tableExit : Nat
  partExc : Option String
  partExit : Nat
  copyWalk : List (String × List String)
  copyFail : String → Bool
  downloadOk : Bool
  moveExc : Option String

/-- Result-and-trace monad: the `Except` outcome of a piece of Python code
plus the trace of events it emitted. -/
structure RunM (α : Type) where
  res : Except PyExc α
  trace : List Event

instance {ε α : Type} [DecidableEq ε] [DecidableEq α] : DecidableEq (Except ε α) :=
  fun x y =>
    match x, y with
    | .ok a, .ok b => decidable_of_iff (a = b) (by simp)
    | .error a, .error b => decidable_of_iff (a = b) (by simp)
    | .ok _, .error _ => isFalse fun h => Except.noConfusion h
    | .error _, .ok _ => isFalse fun h => Except.noConfusion h

instance {α : Type} [DecidableEq α] : DecidableEq (RunM α) := fun x y =>
  decidable_of_iff (x.res = y.res ∧ x.trace = y.trace) (by
    rcases x with ⟨a, b⟩; rcases y with ⟨c, d⟩; simp)

instance : Monad RunM where
  pure a := ⟨.ok a, []⟩
  bind x f :=
    match x.res with
    | .ok a => ⟨(f a).res, x.trace ++ (f a).trace⟩
    | .error e => ⟨.error e, x.trace⟩

/-- Raising a Python exception. -/
def RunM.raise {α : Type} (e : PyExc) : RunM α := ⟨.error e, []⟩

/-- Record one externally visible action. -/
def emit (e : Event) : RunM Unit := ⟨.ok (), [e]⟩

/-- Lift an exception-free computation (a value plus its trace). -/
def liftRun {α : Type} (x : α × List Event) : RunM α := ⟨.ok x.1, x.2⟩

@[simp] theorem RunM.bind_ok {α β : Type} (a : α) (tr : List Event) (f : α → RunM β) :
    (RunM.mk (.ok a) tr >>= f) = ⟨(f a).res, tr ++ (f a).trace⟩ := rfl

@[simp] theorem RunM.bind_err {α β : Type} (e : PyExc) (tr : List Event) (f : α → RunM β) :
    (RunM.mk (.error e) tr >>= f) = ⟨.error e, tr⟩ := rfl

@[simp] theorem RunM.pure_def {α : Type} (a : α) : (pure a : RunM α) = ⟨.ok a, []⟩ := rfl

theorem RunM.bind_def {α β : Type} (x : RunM α) (f : α → RunM β) :
    (x >>= f) = match x.res with
      | .ok a => ⟨(f a).res, x.trace ++ (f a).trace⟩
      | .error e => ⟨.error e, x.trace⟩ := rfl

/-- Trace of a bind: the first trace, extended by the continuation's trace
when the first part succeeded. -/
theorem RunM.trace_bind {α β : Type} (x : RunM α) (f : α → RunM β) :
    (x >>= f).trace = x.trace ++ (match x.res with
      | .ok a => (f a).trace
      | .error _ => []) := by
  rcases x with ⟨r, tr⟩
  cases r <;> simp [RunM.bind_def]

/-- Membership in a bind trace decomposes into the two parts. -/
theorem RunM.mem_bind_trace {α β : Type} {x : RunM α} {f : α → RunM β} {e : Event}
    (h : e ∈ (x >>= f).trace) :
    e ∈ x.trace ∨ ∃ a, x.res = .ok a ∧ e ∈ (f a).trace := by
  rcases x with ⟨r, tr⟩
  cases r with
  | ok a =>
    simp only [RunM.bind_ok] at h
    rcases List.mem_append.mp h with h1 | h2
    · exact Or.inl h1
    · exact Or.inr ⟨a, rfl, h2⟩
  | error e' =>
    simp only [RunM.bind_err] at h
    exact Or.inl h

/- ### Message texts (the `print_with_color` strings of `core.py`) -/

def warnAdminText : String :=
  "Warning: You are not running UniFlash with administrator privileges!"

def mountingSourceText : String := "Mounting source filesystem..."

def errSourceMountText : String := "Error: Unable to mount source filesystem"

def fat32WarnText (path : String) : String :=
  "Warning: File " ++ path ++ " exceeds the FAT32 4GiB limit, switching to NTFS."

def checkingFormatText (dev : String) : String :=
  "Checking and formatting " ++ dev ++ " if no partition exists..."

def noPartitionsText : String :=
  "No partitions found, creating a new partition and formatting..."

def hasPartitionText : String := "Target device already has a partition."

def wipingText (dev : String) : String :=
  "Wiping existing partition table on " ++ dev

def creatingTableText (dev : String) : String :=
  "Creating new partition table on " ++ dev ++ "..."

def creatingPartitionText : String := "Creating target partition..."

def mountingTargetText : String := "Mounting target filesystem..."

def errTargetMountText : String := "Error: Unable to mount target filesystem"

def creatingUefiText : String := "Creating UEFI:NTFS support partition..."

def warnDownloadText : String := "Warning: Unable to download UEFI:NTFS image."

def successText : String := "Flashing completed successfully!"

def DEFAULT_NEW_FS_LABEL : String := "USB"

/- ### Leaf functions of `core.py` -/

/-- Model of `print_with_color` (`core.py:38-55`): with a GUI attached, a red (fatal)
message stores the error on the GUI handler and calls `sys.exit()`, raising
`SystemExit`; otherwise the text is merely displayed. -/
def print_with_color (env : Env) (text : String) (color : Color) : RunM Unit :=
  if env.guiPresent && color == .red then ⟨.error .systemExit, [.msg text color]⟩
  else ⟨.ok (), [.msg text color]⟩

/-- Model of `check_kill_signal` (`core.py:163-166`): when a GUI is attached and its
kill flag is set, `sys.exit()` raises `SystemExit`.  The `killCheck` event
marks each call of the function. -/
def check_kill_signal (env : Env) : RunM Unit :=
  if env.guiPresent && env.guiKill then ⟨.error .systemExit, [.killCheck]⟩
  else ⟨.ok (), [.killCheck]⟩

/-- The character class `[A-Z]` of the validation regexes. -/
def isUpperAZ (c : Char) : Bool := 'A' ≤ c && c ≤ 'Z'

/-- Model of `re.match(r"^[A-Z]:\\", s)`: an upper-case letter, a colon and a
backslash must open the string. -/
def matchesDriveRoot (s : String) : Bool :=
  match s.data with
  | c :: c2 :: c3 :: _ => isUpperAZ c && c2 == ':' && c3 == '\\'
  | _ => false

/-- Model of `re.match(r"^[A-Z]:$", s)`: the whole string is an upper-case letter
followed by a colon. -/
def matchesBareDrive (s : String) : Bool :=
  match s.data with
  | [c, c2] => isUpperAZ c && c2 == ':'
  | _ => false

/-- Model of `check_runtime_parameters` (`core.py:75-91`).  `source_is_file` stands
for `os.path.isfile(source_media)`.  Each failing test prints a red error
and returns 1; the prints do not affect the returned value, so the function
is modelled as a pure result. -/
def check_runtime_parameters (install_mode : String) (source_is_file : Bool)
    (target_media : String) : Nat :=
  if !source_is_file then 1
  else if !matchesDriveRoot target_media then 1
  else if install_mode == "device" && !matchesBareDrive target_media then 1
  else if install_mode == "partition" && !matchesDriveRoot target_media then 1
  else 0

/-- Model of `check_fat32_filesize_limitation` (`core.py:135-143`): walk the source
files; on the first one whose size exceeds `2^32 - 1` bytes, print a yellow
warning and return 1; otherwise return 0. -/
def check_fat32_filesize_limitation : List (String × Nat) → Nat × List Event
  | [] => (0, [])
  | (p, sz) :: rest =>
    if sz > 2 ^ 32 - 1 then (1, [.msg (fat32WarnText p) .yellow])
    else check_fat32_filesize_limitation rest

/-- The guarded scan at `core.py:218`: `check_fat32_filesize_limitation`
runs only when the requested type is the string `"FAT"` (short-circuit of
`target_filesystem_type == "FAT" and check_fat32_filesize_limitation(...)`). -/
def fat32_scan (tft : String) (files : List (String × Nat)) : Nat × List Event :=
  if tft == "FAT" then check_fat32_filesize_limitation files else (0, [])

/-- The resolved filesystem type after `core.py:218-219`: escalated to
`"NTFS"` exactly when the guarded scan returned 1. -/
def resolve_fs_type (tft : String) (files : List (String × Nat)) : String :=
  if (fat32_scan tft files).1 == 1 then "NTFS" else tft

/- ### String plumbing used by the copy loop -/

/-- Model of `os.path.join(dirpath, file)` on Windows paths as used here: insert a
backslash separator unless the directory already ends with one. -/
def pyJoin (d f : String) : String :=
  if d.data.getLast? = some '\\' then d ++ f else d ++ "\\" ++ f

/-- Python `str.replace(pat, rep)` on character lists: replace every
non-overlapping occurrence, scanning left to right.  Structural fuel makes
the definition kernel-reducible; `fuel = length of the list` always
suffices since every step consumes at least one character. -/
def replaceAllFuel (pat rep : List Char) : Nat → List Char → List Char
  | _, [] => []
  | 0, l => l
  | fuel + 1, c :: rest =>
    if pat ≠ [] && pat.isPrefixOf (c :: rest) then
      rep ++ replaceAllFuel pat rep fuel (List.drop (pat.length - 1) rest)
    else
      c :: replaceAllFuel pat rep fuel rest

/-- Python `s.replace(pat, rep)` for a non-empty `pat` (the mountpoint
strings substituted here are never empty). -/
def pyReplace (s pat rep : String) : String :=
  ⟨replaceAllFuel pat.data rep.data s.data.length s.data⟩

/-- The destination `core.py:319` computes for one file:
`target_fs_mountpoint + path.replace(source_fs_mountpoint, "")`. -/
def copyDest (src tgt p : String) : String := tgt ++ pyReplace p src ""

/-- The destination the specification describes: the target mountpoint
followed by the file's path relative to the source mountpoint (the path
with its leading `src` stripped). -/
def stripDest (src tgt p : String) : String :=
  tgt ++ ⟨p.data.drop src.data.length⟩

/-- The joined paths `os.walk` + `os.path.join` enumerate, in order
(`core.py:315-317`). -/
def walkPaths (walk : List (String × List String)) : List String :=
  walk.flatMap fun df => df.2.map (pyJoin df.1)

/-- The message of the `OSError` raised by `shutil.copy2` on `path`; the
exception carries the failing path. -/
def copy2ErrMsg (path : String) : String := "copy2 failed: " ++ path

/- ### Device-facing functions of `core.py` -/

/-- Models of `create_target_partition` (`core.py:262-274`) and
`format_target_device` (`core.py:190-199`): query the partitions; when
none exist, create and format one with the default label, else report the
device as already partitioned.  `formatExc` injects an exception raised by
the PowerShell query itself. -/
def create_target_partition (env : Env) (dev fs label : String) : RunM Unit := do
  print_with_color env creatingPartitionText .green
  match env.partExc with
  | some m => RunM.raise (.pyError m)
  | none => emit (.dpCreateFormat dev fs label env.partExit)

def format_target_device (env : Env) (dev fs : String) : RunM Unit := do
  print_with_color env (checkingFormatText dev) .green
  match env.formatExc with
  | some m => RunM.raise (.pyError m)
  | none => do
    emit (.psGetPartitions dev)
    if !env.hasPartitions then do
      print_with_color env noPartitionsText .green
      create_target_partition env dev fs DEFAULT_NEW_FS_LABEL
    else
      print_with_color env hasPartitionText .green

/-- Model of `wipe_existing_partition_table_and_filesystem_signatures`
(`core.py:245-249`): print, then run `diskpart ... clean`.  The exit code
of the diskpart process is never inspected; it is recorded only in the
trace event. -/
def wipe_existing_partition_table_and_filesystem_signatures
    (env : Env) (dev : String) : RunM Unit := do
  print_with_color env (wipingText dev) .green
  match env.wipeExc with
  | some m => RunM.raise (.pyError m)
  | none => emit (.dpClean dev env.wipeExit)

/-- Model of `create_target_partition_table` (`core.py:252-259`): convert to MBR for
`legacy`/`msdos`, to GPT for `gpt`, otherwise do nothing; the diskpart exit
code is never inspected. -/
def create_target_partition_table (env : Env) (dev style : String) : RunM Unit := do
  print_with_color env (creatingTableText dev) .green
  if style == "legacy" || style == "msdos" then
    match env.tableExc with
    | some m => RunM.raise (.pyError m)
    | none => emit (.dpConvert dev "mbr" env.tableExit)
  else if style == "gpt" then
    match env.tableExc with
    | some m => RunM.raise (.pyError m)
    | none => emit (.dpConvert dev "gpt" env.tableExit)
  else pure ()

/-- Model of `mount_source_filesystem` (`core.py:292-302`): print, create the
mountpoint directory, run `Mount-DiskImage` with `check=True`; a
`CalledProcessError` is caught and turned into the return value 1. -/
def mount_source_filesystem (env : Env) (media mp : String) : RunM Nat := do
  print_with_color env mountingSourceText .green
  match env.mountSourceExc with
  | some m => RunM.raise (.pyError m)
  | none => do
    emit (.mountSource media mp)
    pure (if env.mountSourceOk then 0 else 1)

/-- Model of `mount_target_filesystem` (`core.py:305-307`): prints and returns 0
unconditionally; no mounting is attempted. -/
def mount_target_filesystem (env : Env) (dev mp : String) : RunM Nat := do
  print_with_color env mountingTargetText .green
  pure 0

/-- The per-file loop of `copy_filesystem_files` (`core.py:315-319`): for
each enumerated path run `shutil.copy2(path, target + path.replace(source,
""))`; an I/O failure raises out of the loop at once. -/
def copyLoop (env : Env) (src tgt : String) : List String → RunM Unit
  | [] => pure ()
  | p :: rest =>
    if env.copyFail p then RunM.raise (.pyError (copy2ErrMsg p))
    else do
      emit (.copyFile p (copyDest src tgt p))
      copyLoop env src tgt rest

/-- Model of `copy_filesystem_files` (`core.py:310-321`): one kill check at entry,
start the progress reporter, copy every file, set the reporter's stop
flag.  No kill check happens inside the per-file loop. -/
def copy_filesystem_files (env : Env) (src tgt : String) : RunM Unit := do
  check_kill_signal env
  emit .reporterStart
  copyLoop env src tgt (walkPaths env.copyWalk)
  emit .reporterStopSet

/-- Model of `create_uefi_ntfs_support_partition` (`core.py:277-278`): only prints. -/
def create_uefi_ntfs_support_partition (env : Env) (dev : String) : RunM Unit :=
  print_with_color env creatingUefiText .green

/-- Model of `install_uefi_ntfs_support_partition` (`core.py:281-289`): kill check,
then fetch the UEFI:NTFS image; a download failure prints a yellow warning
and returns 1; on success the image is moved and copied onto the support
partition (where `shutil` may raise, injected by `moveExc`). -/
def install_uefi_ntfs_support_partition (env : Env) (part dir : String) : RunM Nat := do
  check_kill_signal env
  emit .fetchImage
  if !env.downloadOk then do
    print_with_color env warnDownloadText .yellow
    pure 1
  else
    match env.moveExc with
    | some m => RunM.raise (.pyError m)
    | none => do
      emit (.installImage part)
      pure 0

/- ### The pipeline (`flash_device`, `core.py:202-242`) -/

/-- The four destructive preparation calls of `core.py:221-224`, in source
order, with a `stage` marker emitted at each call site. -/
def pipeline_prep (env : Env) (dev fs label : String) : RunM Unit := do
  emit (.stage .detectOrCreate)
  format_target_device env dev fs
  emit (.stage .wipeSignatures)
  wipe_existing_partition_table_and_filesystem_signatures env dev
  emit (.stage .partitionTable)
  create_target_partition_table env dev "legacy"
  emit (.stage .createFilesystem)
  create_target_partition env dev fs label

/-- Lines `core.py:226-234`: mount the target (constant success), copy the files,
and on NTFS install the UEFI:NTFS support.  `targetMountFailBranch` marks
entry into the `core.py:227-228` error branch. -/
def pipeline_post (env : Env) (target_device fs : String) : RunM FlashResult := do
  let m ← mount_target_filesystem env target_device env.tgtMp
  if m == 0 then do
    copy_filesystem_files env env.srcMp env.tgtMp
    if fs == "NTFS" then do
      create_uefi_ntfs_support_partition env target_device
      let _ ← install_uefi_ntfs_support_partition env (target_device ++ "2") env.tempDir
      pure FlashResult.retNone
    else pure FlashResult.retNone
  else do
    emit .targetMountFailBranch
    print_with_color env errTargetMountText .red
    pure FlashResult.retOne

/-- The body of the `try` block of `flash_device` (`core.py:209-234`):
admin check; source mount; the guarded FAT32 scan with the resulting
resolved filesystem type (`core.py:218-219`); the four preparation steps;
then the mount-copy-postprocess tail. -/
def tryInner (env : Env) (source_media target_device tft label : String) :
    RunM FlashResult :=
  if env.isAdmin then
    mount_source_filesystem env source_media env.srcMp >>= fun r =>
    if r == 0 then
      liftRun (fat32_scan tft env.walkFiles) >>= fun _ =>
      pipeline_prep env target_device (resolve_fs_type tft env.walkFiles) label >>=
        fun _ =>
      pipeline_post env target_device (resolve_fs_type tft env.walkFiles)
    else
      print_with_color env errSourceMountText .red >>= fun _ =>
      pure FlashResult.retOne
  else
    print_with_color env warnAdminText .yellow >>= fun _ =>
    pure FlashResult.retOne

/-- The `try`/`except Exception` of `flash_device` (`core.py:236-238`): any
ordinary exception is printed in red (which itself raises `SystemExit`
under a GUI) and turned into `return 1`; `SystemExit` propagates. -/
def flash_try_body (env : Env) (source_media target_device tft label : String) :
    FlashResult × List Event :=
  match tryInner env source_media target_device tft label with
  | ⟨.ok v, tr⟩ => (v, tr)
  | ⟨.error .systemExit, tr⟩ => (.sysExit, tr)
  | ⟨.error (.pyError m), tr⟩ =>
    match print_with_color env m .red with
    | ⟨.ok _, tr2⟩ => (.retOne, tr ++ tr2)
    | ⟨.error _, tr2⟩ => (.sysExit, tr ++ tr2)

/-- The `finally` block (`core.py:240-242`): `cleanup(...)` runs, then the
success message prints (green, so it never exits).  Inside `flash_device`
the temp directory created by `mkdtemp` at entry still exists, so the
`shutil.rmtree` inside `cleanup` succeeds and the block completes
normally. -/
def finallyTrace : List Event := [.cleanupRun, .msg successText .green]

/-- Model of `flash_device` (`core.py:202-242`): the `try` body's outcome, with the
`finally` block's actions appended to the trace.  A `return` inside `try`
keeps its value after `finally`; an uncaught `SystemExit` still propagates
after `finally`. -/
def flash_device (env : Env) (source_media target_device tft label : String) :
    FlashResult × List Event :=
  let b := flash_try_body env source_media target_device tft label
  (b.1, b.2 ++ finallyTrace)

/- ### `cleanup` in isolation (`core.py:337-340`) -/

/-- The state `cleanup` touches: whether the progress-reporter thread is
alive, its stop flag, and whether the temp directory exists. -/
structure CleanState where
  reporterAlive : Bool
  reporterStop : Bool
  tempDirExists : Bool
deriving DecidableEq, Repr

/-- Model of `cleanup` (`core.py:337-340`): set the reporter's stop flag if the
thread is alive, then `shutil.rmtree(temp_directory)` — which raises
`FileNotFoundError` when the directory does not exist (no `ignore_errors`).
Returns the new state and the raised exception, if any. -/
def cleanup (s : CleanState) : CleanState × Option String :=
  let s1 := if s.reporterAlive then { s with reporterStop := true } else s
  if s1.tempDirExists then ({ s1 with tempDirExists := false }, none)
  else (s1, some "FileNotFoundError")

/- ### Event classifiers -/

def Event.isCleanup : Event → Bool
  | .cleanupRun => true
  | _ => false

def Event.isTargetMountFail : Event → Bool
  | .targetMountFailBranch => true
  | _ => false

def Event.isKillCheck : Event → Bool
  | .killCheck => true
  | _ => false

def Event.isCopyFile : Event → Bool
  | .copyFile _ _ => true
  | _ => false

def Event.isFetch : Event → Bool
  | .fetchImage => true
  | _ => false

def Event.isDownloadWarn : Event → Bool
  | .msg t c => t == warnDownloadText && c == .yellow
  | _ => false

def Event.stageOf : Event → Option Stage
  | .stage s => some s
  | _ => none

/-- The stage markers occurring in a trace, in order. -/
def stagesOf (tr : List Event) : List Stage := tr.filterMap Event.stageOf

/-- The order `core.py:221-224` issues the preparation steps in. -/
def canonicalStages : List Stage :=
  [.detectOrCreate, .wipeSignatures, .partitionTable, .createFilesystem]

def Event.isRedMsg : Event → Bool
  | .msg _ .red => true
  | _ => false

def Event.isConvert : Event → Bool
  | .dpConvert _ _ _ => true
  | _ => false

/-- A create/format event whose filesystem type differs from `fs`. -/
def Event.isCreateFormatNotFs (fs : String) : Event → Bool
  | .dpCreateFormat _ b _ _ => !(b == fs)
  | _ => false

/-- Does `pat` occur (as a contiguous block) anywhere in `l`? -/
def occursIn (pat l : List Char) : Bool :=
  (List.range (l.length + 1)).any fun i => pat.isPrefixOf (l.drop i)

/- ### Concrete environments used by counterexamples and witnesses -/

/-- A benign environment: admin, all mounts and steps succeed, no GUI, no
files, target already partitioned. -/
def baseEnv : Env :=
  { guiPresent := false, guiKill := false, isAdmin := true,
    srcMp := "S", tgtMp := "T", tempDir := "D",
    mountSourceExc := none, mountSourceOk := true,
    walkFiles := [], hasPartitions := true,
    formatExc := none, wipeExc := none, wipeExit := 0,
    tableExc := none, tableExit := 0, partExc := none, partExit := 0,
    copyWalk := [], copyFail := fun _ => false,
    downloadOk := true, moveExc := none }

/-- Benign run in which the external `diskpart clean` command exits with
status 1 (a failed wipe). -/
def envC3 : Env := { baseEnv with wipeExit := 1, copyWalk := [("S", ["a"])] }

/-- Benign run reaching the wipe step, whose subprocess call raises. -/
def envC3w : Env := { baseEnv with wipeExc := some "boom" }

/-- Benign GUI run (kill flag clear) copying three files. -/
def envC6 : Env :=
  { baseEnv with guiPresent := true, copyWalk := [("S", ["a", "b", "c"])] }

/-- Benign GUI run with the kill flag set. -/
def envC6w : Env := { baseEnv with guiPresent := true, guiKill := true }

/-- Benign run whose source tree contains a subdirectory literally named
like the source mountpoint string. -/
def envC7 : Env := { baseEnv with copyWalk := [("s\\s", ["f"])] }

/-- Benign run for the copy-contract witness. -/
def envC7w : Env := { baseEnv with copyWalk := [("m", ["a"])] }

/-- Benign run in which the UEFI:NTFS image download fails. -/
def envC8w : Env :=
  { baseEnv with downloadOk := false, copyWalk := [("S", ["a"])] }

end UniFlash

namespace UniFlash

/- ## Normal forms for the leaf functions -/

@[simp] theorem print_green_eq (env : Env) (t : String) :
    print_with_color env t .green = ⟨.ok (), [.msg t .green]⟩ := by
  simp [print_with_color]

@[simp] theorem print_yellow_eq (env : Env) (t : String) :
    print_with_color env t .yellow = ⟨.ok (), [.msg t .yellow]⟩ := by
  simp [print_with_color]

@[simp] theorem print_red_eq (env : Env) (t : String) :
    print_with_color env t .red =
      ⟨if env.guiPresent then .error .systemExit else .ok (), [.msg t .red]⟩ := by
  cases h : env.guiPresent <;> simp [print_with_color, h]

@[simp] theorem check_kill_eq (env : Env) :
    check_kill_signal env =
      ⟨if env.guiPresent && env.guiKill then .error .systemExit else .ok (),
        [.killCheck]⟩ := by
  cases h : env.guiPresent && env.guiKill <;> simp [check_kill_signal, h]

@[simp] theorem mount_target_eq (env : Env) (d mp : String) :
    mount_target_filesystem env d mp = ⟨.ok 0, [.msg mountingTargetText .green]⟩ := by
  simp [mount_target_filesystem]

@[simp] theorem create_uefi_eq (env : Env) (d : String) :
    create_uefi_ntfs_support_partition env d =
      ⟨.ok (), [.msg creatingUefiText .green]⟩ := by
  simp [create_uefi_ntfs_support_partition]

/- ## Counting events over a run -/

theorem RunM.countP_bind {α β : Type} (p : Event → Bool) (x : RunM α) (f : α → RunM β)
    (hx : x.trace.countP p = 0) (hf : ∀ a, ((f a).trace.countP p) = 0) :
    (((x >>= f).trace).countP p) = 0 := by
  rcases x with ⟨r, tr⟩
  cases r with
  | ok a =>
    show ((tr ++ (f a).trace).countP p) = 0
    rw [List.countP_append, hx, hf a]
  | error e => exact hx

theorem countP_print (p : Event → Bool) (env : Env) (t : String) (c : Color)
    (h : p (.msg t c) = false) :
    (((print_with_color env t c).trace).countP p) = 0 := by
  unfold print_with_color
  split <;> simp [List.countP_cons, h]

theorem countP_kill (p : Event → Bool) (env : Env) (h : p .killCheck = false) :
    (((check_kill_signal env).trace).countP p) = 0 := by
  unfold check_kill_signal
  split <;> simp [List.countP_cons, h]

theorem countP_mount_source (p : Event → Bool) (env : Env) (m mp : String)
    (h1 : p (.msg mountingSourceText .green) = false)
    (h2 : p (.mountSource m mp) = false) :
    (((mount_source_filesystem env m mp).trace).countP p) = 0 := by
  cases h : env.mountSourceExc <;>
    simp [mount_source_filesystem, h, RunM.raise, emit, List.countP_cons, h1, h2]

theorem countP_create_partition (p : Event → Bool) (env : Env) (dev fs label : String)
    (h1 : p (.msg creatingPartitionText .green) = false)
    (h2 : ∀ c k, p (.dpCreateFormat dev fs c k) = false) :
    (((create_target_partition env dev fs label).trace).countP p) = 0 := by
  cases h : env.partExc <;>
    simp [create_target_partition, h, RunM.raise, emit, List.countP_cons, h1, h2]

theorem countP_format (p : Event → Bool) (env : Env) (dev fs : String)
    (h1 : p (.msg (checkingFormatText dev) .green) = false)
    (h2 : p (.psGetPartitions dev) = false)
    (h3 : p (.msg noPartitionsText .green) = false)
    (h4 : p (.msg hasPartitionText .green) = false)
    (h5 : p (.msg creatingPartitionText .green) = false)
    (h6 : ∀ c k, p (.dpCreateFormat dev fs c k) = false) :
    (((format_target_device env dev fs).trace).countP p) = 0 := by
  cases hf : env.formatExc
  · cases hp : env.hasPartitions <;> cases hx : env.partExc <;>
      simp [format_target_device, create_target_partition, hf, hp, hx,
        RunM.raise, emit, List.countP_cons, h1, h2, h3, h4, h5, h6]
  · simp [format_target_device, hf, RunM.raise, List.countP_cons, h1]

theorem countP_wipe (p : Event → Bool) (env : Env) (dev : String)
    (h1 : p (.msg (wipingText dev) .green) = false)
    (h2 : ∀ k, p (.dpClean dev k) = false) :
    (((wipe_existing_partition_table_and_filesystem_signatures env dev).trace).countP p)
      = 0 := by
  cases h : env.wipeExc <;>
    simp [wipe_existing_partition_table_and_filesystem_signatures, h,
      RunM.raise, emit, List.countP_cons, h1, h2]

theorem countP_table_legacy (p : Event → Bool) (env : Env) (dev : String)
    (h1 : p (.msg (creatingTableText dev) .green) = false)
    (h2 : ∀ k, p (.dpConvert dev "mbr" k) = false) :
    (((create_target_partition_table env dev "legacy").trace).countP p) = 0 := by
  cases h : env.tableExc <;>
    simp [create_target_partition_table, h, RunM.raise, emit, List.countP_cons, h1, h2]

theorem countP_copyLoop (p : Event → Bool) (env : Env) (s t : String)
    (h : ∀ a b, p (.copyFile a b) = false) (ps : List String) :
    (((copyLoop env s t ps).trace).countP p) = 0 := by
  induction ps with
  | nil => simp [copyLoop]
  | cons q rest ih =>
    by_cases hf : env.copyFail q <;>
      simp [copyLoop, hf, RunM.raise, emit, List.countP_cons, h, ih]

theorem countP_copy_files (p : Event → Bool) (env : Env) (s t : String)
    (hk : p .killCheck = false) (hrs : p .reporterStart = false)
    (hcp : ∀ a b, p (.copyFile a b) = false) (hre : p .reporterStopSet = false) :
    (((copy_filesystem_files env s t).trace).countP p) = 0 := by
  unfold copy_filesystem_files
  apply RunM.countP_bind _ _ _ (countP_kill p env hk)
  intro _
  apply RunM.countP_bind _ _ _ (by simp [emit, hrs])
  intro _
  apply RunM.countP_bind _ _ _ (countP_copyLoop p env s t hcp _)
  intro _
  simp [emit, hre]

theorem countP_install (p : Event → Bool) (env : Env) (part dir : String)
    (hk : p .killCheck = false) (hfe : p .fetchImage = false)
    (hw : p (.msg warnDownloadText .yellow) = false)
    (hin : p (.installImage part) = false) :
    (((install_uefi_ntfs_support_partition env part dir).trace).countP p) = 0 := by
  unfold install_uefi_ntfs_support_partition
  apply RunM.countP_bind _ _ _ (countP_kill p env hk)
  intro _
  apply RunM.countP_bind _ _ _ (by simp [emit, hfe])
  intro _
  cases hd : env.downloadOk
  · simp [hd, List.countP_cons, hw]
  · cases hm : env.moveExc <;>
      simp [hd, hm, RunM.raise, emit, List.countP_cons, hin]

theorem countP_fat32 (p : Event → Bool) (h : ∀ t, p (.msg t .yellow) = false) :
    ∀ files, ((((check_fat32_filesize_limitation files).2)).countP p) = 0 := by
  intro files
  induction files with
  | nil => simp [check_fat32_filesize_limitation]
  | cons f rest ih =>
    rcases f with ⟨q, sz⟩
    show (((if sz > 2 ^ 32 - 1 then (1, [Event.msg (fat32WarnText q) Color.yellow])
      else check_fat32_filesize_limitation rest).2).countP p) = 0
    split
    · simp [List.countP_cons, h]
    · exact ih

theorem countP_scan (p : Event → Bool) (tft : String) (files : List (String × Nat))
    (h : ∀ t, p (.msg t .yellow) = false) :
    ((((fat32_scan tft files).2)).countP p) = 0 := by
  unfold fat32_scan
  split <;> simp [countP_fat32 p h files]

theorem countP_prep (p : Event → Bool) (env : Env) (dev fs label : String)
    (hstage : ∀ st, p (.stage st) = false)
    (h1 : p (.msg (checkingFormatText dev) .green) = false)
    (h2 : p (.psGetPartitions dev) = false)
    (h3 : p (.msg noPartitionsText .green) = false)
    (h4 : p (.msg hasPartitionText .green) = false)
    (h5 : p (.msg creatingPartitionText .green) = false)
    (h6 : ∀ c k, p (.dpCreateFormat dev fs c k) = false)
    (h7 : p (.msg (wipingText dev) .green) = false)
    (h8 : ∀ k, p (.dpClean dev k) = false)
    (h9 : p (.msg (creatingTableText dev) .green) = false)
    (h10 : ∀ k, p (.dpConvert dev "mbr" k) = false) :
    (((pipeline_prep env dev fs label).trace).countP p) = 0 := by
  unfold pipeline_prep
  apply RunM.countP_bind _ _ _ (by simp [emit, hstage])
  intro _
  apply RunM.countP_bind _ _ _ (countP_format p env dev fs h1 h2 h3 h4 h5 h6)
  intro _
  apply RunM.countP_bind _ _ _ (by simp [emit, hstage])
  intro _
  apply RunM.countP_bind _ _ _ (countP_wipe p env dev h7 h8)
  intro _
  apply RunM.countP_bind _ _ _ (by simp [emit, hstage])
  intro _
  apply RunM.countP_bind _ _ _ (countP_table_legacy p env dev h9 h10)
  intro _
  apply RunM.countP_bind _ _ _ (by simp [emit, hstage])
  intro _
  exact countP_create_partition p env dev fs label h5 h6

theorem countP_post (p : Event → Bool) (env : Env) (dev fs : String)
    (hmt : p (.msg mountingTargetText .green) = false)
    (hk : p .killCheck = false) (hrs : p .reporterStart = false)
    (hcp : ∀ a b, p (.copyFile a b) = false) (hre : p .reporterStopSet = false)
    (huefi : p (.msg creatingUefiText .green) = false)
    (hfe : p .fetchImage = false)
    (hw : p (.msg warnDownloadText .yellow) = false)
    (hin : p (.installImage (dev ++ "2")) = false) :
    (((pipeline_post env dev fs).trace).countP p) = 0 := by
  unfold pipeline_post
  simp only [mount_target_eq, RunM.bind_ok]
  rw [List.countP_append]
  have h0 : (([Event.msg mountingTargetText .green]).countP p) = 0 := by
    simp [List.countP_cons, hmt]
  rw [h0, Nat.zero_add]
  simp only [beq_self_eq_true, if_true]
  apply RunM.countP_bind _ _ _ (countP_copy_files p env _ _ hk hrs hcp hre)
  intro _
  by_cases hn : (fs == "NTFS") = true
  · simp only [hn, if_true]
    apply RunM.countP_bind _ _ _ (by simp [List.countP_cons, huefi])
    intro _
    apply RunM.countP_bind _ _ _
      (countP_install p env (dev ++ "2") env.tempDir hk hfe hw hin)
    intro _
    simp
  · rw [if_neg hn]
    simp

theorem countP_tryInner (p : Event → Bool) (env : Env) (s d tft label : String)
    (hmsg : ∀ t c, p (.msg t c) = false)
    (hstage : ∀ st, p (.stage st) = false)
    (hps : ∀ x, p (.psGetPartitions x) = false)
    (hclean : ∀ x k, p (.dpClean x k) = false)
    (hconv : ∀ x y k, p (.dpConvert x y k) = false)
    (hcf : ∀ x c k, p (.dpCreateFormat x (resolve_fs_type tft env.walkFiles) c k) = false)
    (hms : ∀ a b, p (.mountSource a b) = false)
    (hkc : p .killCheck = false)
    (hrs : p .reporterStart = false)
    (hcp : ∀ a b, p (.copyFile a b) = false)
    (hre : p .reporterStopSet = false)
    (hfe : p .fetchImage = false)
    (hin : ∀ x, p (.installImage x) = false) :
    (((tryInner env s d tft label).trace).countP p) = 0 := by
  unfold tryInner
  by_cases ha : env.isAdmin = true
  · rw [if_pos ha]
    apply RunM.countP_bind _ _ _
      (countP_mount_source p env s env.srcMp (hmsg _ _) (hms _ _))
    intro r
    by_cases hr : (r == 0) = true
    · rw [if_pos hr]
      apply RunM.countP_bind _ _ _
        (by simpa [liftRun] using
          countP_scan p tft env.walkFiles (fun t => hmsg t .yellow))
      intro _
      apply RunM.countP_bind _ _ _
        (countP_prep p env d (resolve_fs_type tft env.walkFiles) label hstage
          (hmsg _ _) (hps _) (hmsg _ _) (hmsg _ _) (hmsg _ _) (hcf _)
          (hmsg _ _) (hclean _) (hmsg _ _) (hconv _ _))
      intro _
      exact countP_post p env d (resolve_fs_type tft env.walkFiles) (hmsg _ _)
        hkc hrs hcp hre (hmsg _ _) hfe (hmsg _ _) (hin _)
    · rw [if_neg hr]
      apply RunM.countP_bind _ _ _ (countP_print p env _ _ (hmsg _ _))
      intro _
      simp
  · rw [if_neg ha]
    apply RunM.countP_bind _ _ _ (countP_print p env _ _ (hmsg _ _))
    intro _
    simp

theorem countP_flash_body (p : Event → Bool) (env : Env) (s d tft label : String)
    (hmsg : ∀ t c, p (.msg t c) = false)
    (hstage : ∀ st, p (.stage st) = false)
    (hps : ∀ x, p (.psGetPartitions x) = false)
    (hclean : ∀ x k, p (.dpClean x k) = false)
    (hconv : ∀ x y k, p (.dpConvert x y k) = false)
    (hcf : ∀ x c k, p (.dpCreateFormat x (resolve_fs_type tft env.walkFiles) c k) = false)
    (hms : ∀ a b, p (.mountSource a b) = false)
    (hkc : p .killCheck = false)
    (hrs : p .reporterStart = false)
    (hcp : ∀ a b, p (.copyFile a b) = false)
    (hre : p .reporterStopSet = false)
    (hfe : p .fetchImage = false)
    (hin : ∀ x, p (.installImage x) = false) :
    (((flash_try_body env s d tft label).2).countP p) = 0 := by
  have hT := countP_tryInner p env s d tft label hmsg hstage hps hclean hconv
    hcf hms hkc hrs hcp hre hfe hin
  unfold flash_try_body
  rcases hE : tryInner env s d tft label with ⟨r, tr⟩
  rw [hE] at hT
  cases r with
  | ok v => exact hT
  | error e =>
    cases e with
    | systemExit => exact hT
    | pyError m =>
      simp only [print_red_eq]
      cases hg : env.guiPresent <;>
        simp [hg, List.countP_append, List.countP_cons, hT, hmsg]

/- ## C1: cleanup runs exactly once on every exit path -/

theorem flash_cleanup_once (env : Env) (s d tft label : String) :
    (((flash_device env s d tft label).2).countP Event.isCleanup) = 1 := by
  unfold flash_device
  rw [List.countP_append]
  have hb : (((flash_try_body env s d tft label).2).countP Event.isCleanup) = 0 :=
    countP_flash_body Event.isCleanup env s d tft label
      (by intro t c; rfl) (by intro st; rfl) (by intro x; rfl)
      (by intro x k; rfl) (by intro x y k; rfl) (by intro x c k; rfl)
      (by intro a b; rfl) rfl rfl (by intro a b; rfl) rfl rfl (by intro x; rfl)
  rw [hb]
  rfl

/-- C1.  For every environment (covering normal completion, the non-admin
early return, source-mount failure, an exception raised by any pipeline
step, and `SystemExit` from the kill signal or a GUI fatal print), the
trace of `flash_device` contains exactly one `cleanup` invocation, placed
by the `finally` block before `flash_device` returns. -/
theorem uniflash_c1_cleanup_exactly_once (env : Env) (s d tft label : String) :
    (((flash_device env s d tft label).2).countP Event.isCleanup) = 1 :=
  flash_cleanup_once env s d tft label

/- ## C10: the target-mount-failure branch is unreachable -/

/-- C10.  `mount_target_filesystem` returns 0 for every pair of arguments
and performs no mounting (its only action is the status print), and
consequently no execution of `flash_device`, in any environment, ever
enters the `core.py:227-228` target-mount-failure branch. -/
theorem uniflash_c10_target_mount_trivial :
    (∀ (env : Env) (dv mp : String),
      mount_target_filesystem env dv mp = ⟨.ok 0, [.msg mountingTargetText .green]⟩) ∧
    ∀ (env : Env) (s d tft label : String),
      (((flash_device env s d tft label).2).countP Event.isTargetMountFail) = 0 := by
  constructor
  · intro env dv mp
    exact mount_target_eq env dv mp
  · intro env s d tft label
    unfold flash_device
    rw [List.countP_append]
    have hb : (((flash_try_body env s d tft label).2).countP Event.isTargetMountFail)
        = 0 :=
      countP_flash_body Event.isTargetMountFail env s d tft label
        (by intro t c; rfl) (by intro st; rfl) (by intro x; rfl)
        (by intro x k; rfl) (by intro x y k; rfl) (by intro x c k; rfl)
        (by intro a b; rfl) rfl rfl (by intro a b; rfl) rfl rfl (by intro x; rfl)
    rw [hb]
    rfl

/- ## Stage-order machinery for C5 -/

theorem stagesOf_append (a b : List Event) :
    stagesOf (a ++ b) = stagesOf a ++ stagesOf b := by
  simp [stagesOf, List.filterMap_append]

theorem stagesOf_eq_nil_of_forall {tr : List Event}
    (h : ∀ e ∈ tr, Event.stageOf e = none) : stagesOf tr = [] := by
  induction tr with
  | nil => rfl
  | cons e tr ih =>
    have he : Event.stageOf e = none := h e (by simp)
    have ht : ∀ x ∈ tr, Event.stageOf x = none := fun x hx => h x (by simp [hx])
    show List.filterMap Event.stageOf (e :: tr) = []
    simp only [List.filterMap_cons, he]
    exact ih ht

theorem stagesOf_eq_nil_of_countP {tr : List Event}
    (h : tr.countP (fun e => (Event.stageOf e).isSome) = 0) : stagesOf tr = [] := by
  apply stagesOf_eq_nil_of_forall
  intro e he
  have := List.countP_eq_zero.mp h e he
  simpa using this

/-- A bind whose first part emits no stage markers contributes only the
continuation's markers (when the first part succeeded). -/
theorem stagesOf_bind {α β : Type} (x : RunM α) (f : α → RunM β)
    (hx : stagesOf x.trace = []) :
    stagesOf ((x >>= f).trace) = (match x.res with
      | .ok a => stagesOf ((f a).trace)
      | .error _ => []) := by
  rw [RunM.trace_bind, stagesOf_append, hx]
  cases hr : x.res <;> simp [stagesOf]


theorem stagesOf_bind_ok {α β : Type} (x : RunM α) (f : α → RunM β) (a : α)
    (hx : stagesOf x.trace = []) (hres : x.res = .ok a) :
    stagesOf ((x >>= f).trace) = stagesOf ((f a).trace) := by
  rw [RunM.trace_bind, stagesOf_append, hx, hres]
  rfl

theorem stagesOf_bind_error {α β : Type} (x : RunM α) (f : α → RunM β) (e : PyExc)
    (hres : x.res = .error e) :
    stagesOf ((x >>= f).trace) = stagesOf x.trace := by
  rw [RunM.trace_bind, hres]
  show stagesOf (x.trace ++ []) = stagesOf x.trace
  rw [List.append_nil]

theorem stagesOf_bind_nil_right {α β : Type} (x : RunM α) (f : α → RunM β)
    (hf : ∀ a, stagesOf ((f a).trace) = []) :
    stagesOf ((x >>= f).trace) = stagesOf x.trace := by
  rw [RunM.trace_bind, stagesOf_append]
  cases hr : x.res with
  | ok a => rw [hf a, List.append_nil]
  | error e => rw [show stagesOf ([] : List Event) = [] from rfl, List.append_nil]

theorem stagesOf_post (env : Env) (dev fs : String) :
    stagesOf ((pipeline_post env dev fs).trace) = [] :=
  stagesOf_eq_nil_of_countP
    (countP_post _ env dev fs rfl rfl rfl (fun _ _ => rfl) rfl rfl rfl rfl rfl)

theorem stagesOf_mount_source (env : Env) (m mp : String) :
    stagesOf ((mount_source_filesystem env m mp).trace) = [] :=
  stagesOf_eq_nil_of_countP (countP_mount_source _ env m mp rfl rfl)

theorem stagesOf_scan (tft : String) (files : List (String × Nat)) :
    stagesOf ((liftRun (fat32_scan tft files) : RunM Nat).trace) = [] :=
  stagesOf_eq_nil_of_countP
    (by simpa [liftRun] using
      countP_scan (fun e => (Event.stageOf e).isSome) tft files (fun _ => rfl))

theorem prep_stages_take (env : Env) (dev fs label : String) :
    ∃ k, stagesOf ((pipeline_prep env dev fs label).trace) = canonicalStages.take k := by
  cases hf : env.formatExc <;> cases hp : env.hasPartitions <;>
    cases hx : env.partExc <;> cases hw : env.wipeExc <;> cases ht : env.tableExc <;>
    simp [pipeline_prep, format_target_device, create_target_partition,
      wipe_existing_partition_table_and_filesystem_signatures,
      create_target_partition_table, emit, RunM.raise, hf, hp, hx, hw, ht,
      stagesOf, Event.stageOf, canonicalStages] <;>
    first
      | exact ⟨0, rfl⟩
      | exact ⟨1, rfl⟩
      | exact ⟨2, rfl⟩
      | exact ⟨3, rfl⟩
      | exact ⟨4, rfl⟩
      | exact ⟨4, le_rfl⟩

theorem prep_ok (env : Env) (dev fs label : String) (hf : env.formatExc = none)
    (hw : env.wipeExc = none) (ht : env.tableExc = none) (hx : env.partExc = none) :
    (pipeline_prep env dev fs label).res = .ok () ∧
    stagesOf ((pipeline_prep env dev fs label).trace) = canonicalStages := by
  cases hp : env.hasPartitions <;>
    simp [pipeline_prep, format_target_device, create_target_partition,
      wipe_existing_partition_table_and_filesystem_signatures,
      create_target_partition_table, emit, RunM.raise, hf, hp, hx, hw, ht,
      stagesOf, Event.stageOf, canonicalStages]

theorem stagesOf_print (env : Env) (t : String) (c : Color) :
    stagesOf ((print_with_color env t c).trace) = [] :=
  stagesOf_eq_nil_of_countP (countP_print _ env t c rfl)

theorem stagesOf_print_bind_pure (env : Env) (t : String) (c : Color)
    (v : FlashResult) :
    stagesOf (((print_with_color env t c >>= fun _ => pure v) : RunM FlashResult).trace)
      = [] := by
  cases hq : (print_with_color env t c).res with
  | ok a =>
    rw [stagesOf_bind_ok _ _ a (stagesOf_print env t c) hq]
    rfl
  | error e =>
    rw [stagesOf_bind_error _ _ e hq]
    exact stagesOf_print env t c

theorem tryInner_stages (env : Env) (s d tft label : String) :
    ∃ k, stagesOf ((tryInner env s d tft label).trace) = canonicalStages.take k := by
  unfold tryInner
  by_cases ha : env.isAdmin = true
  · rw [if_pos ha]
    cases hm : (mount_source_filesystem env s env.srcMp).res with
    | error e =>
      refine ⟨0, ?_⟩
      rw [stagesOf_bind_error _ _ e hm]
      exact stagesOf_mount_source env s env.srcMp
    | ok r =>
      rw [stagesOf_bind_ok _ _ r (stagesOf_mount_source env s env.srcMp) hm]
      by_cases hr : (r == 0) = true
      · rw [if_pos hr]
        rw [stagesOf_bind_ok _ _ (fat32_scan tft env.walkFiles).1
          (stagesOf_scan tft env.walkFiles) rfl]
        rw [stagesOf_bind_nil_right _ _
          (fun _ => stagesOf_post env d (resolve_fs_type tft env.walkFiles))]
        exact prep_stages_take env d (resolve_fs_type tft env.walkFiles) label
      · rw [if_neg hr]
        exact ⟨0, stagesOf_print_bind_pure env errSourceMountText .red .retOne⟩
  · rw [if_neg ha]
    exact ⟨0, stagesOf_print_bind_pure env warnAdminText .yellow .retOne⟩

theorem flash_body_stages (env : Env) (s d tft label : String) :
    stagesOf ((flash_try_body env s d tft label).2) =
      stagesOf ((tryInner env s d tft label).trace) := by
  unfold flash_try_body
  rcases hE : tryInner env s d tft label with ⟨r, tr⟩
  cases r with
  | ok v => rfl
  | error e =>
    cases e with
    | systemExit => rfl
    | pyError m =>
      simp only [print_red_eq]
      cases hg : env.guiPresent <;>
        simp [stagesOf_append, stagesOf, Event.stageOf]

theorem flash_stages (env : Env) (s d tft label : String) :
    stagesOf ((flash_device env s d tft label).2) =
      stagesOf ((tryInner env s d tft label).trace) := by
  unfold flash_device
  rw [stagesOf_append, flash_body_stages]
  simp [finallyTrace, stagesOf, Event.stageOf]

theorem mount_source_ok_res (env : Env) (m mp : String)
    (h1 : env.mountSourceExc = none) (h2 : env.mountSourceOk = true) :
    (mount_source_filesystem env m mp).res = .ok 0 := by
  simp [mount_source_filesystem, h1, h2, emit]

/-- Any run that reaches device preparation with no step raising shows all
four stage markers, in canonical order. -/
theorem flash_stages_full (env : Env) (s d tft label : String)
    (ha : env.isAdmin = true) (hm1 : env.mountSourceExc = none)
    (hm2 : env.mountSourceOk = true) (hf : env.formatExc = none)
    (hw : env.wipeExc = none) (ht : env.tableExc = none)
    (hx : env.partExc = none) :
    stagesOf ((flash_device env s d tft label).2) = canonicalStages := by
  rw [flash_stages]
  unfold tryInner
  rw [if_pos ha]
  rw [stagesOf_bind_ok _ _ 0 (stagesOf_mount_source env s env.srcMp)
    (mount_source_ok_res env s env.srcMp hm1 hm2)]
  rw [if_pos (show ((0 : Nat) == 0) = true from rfl)]
  rw [stagesOf_bind_ok _ _ (fat32_scan tft env.walkFiles).1
    (stagesOf_scan tft env.walkFiles) rfl]
  rw [stagesOf_bind_nil_right _ _
    (fun _ => stagesOf_post env d (resolve_fs_type tft env.walkFiles))]
  exact (prep_ok env d (resolve_fs_type tft env.walkFiles) label hf hw ht hx).2

/- ## C5: fixed order of the destructive preparation steps -/

/-- C5.  In every environment the preparation-step markers occurring in the
trace of `flash_device` form an initial segment of the fixed order
detect-or-create, wipe signatures, partition table, create-and-format
(so no path ever reorders them); and whenever the run reaches device
preparation without a step raising (admin, source mount succeeds, no
injected exception), all four markers occur, exactly in that order. -/
theorem uniflash_c5_fixed_order :
    (∀ (env : Env) (s d tft label : String), ∃ k,
      stagesOf ((flash_device env s d tft label).2) = canonicalStages.take k) ∧
    ∀ (env : Env) (s d tft label : String), env.isAdmin = true →
      env.mountSourceExc = none → env.mountSourceOk = true →
      env.formatExc = none → env.wipeExc = none → env.tableExc = none →
      env.partExc = none →
      stagesOf ((flash_device env s d tft label).2) = canonicalStages := by
  constructor
  · intro env s d tft label
    rw [flash_stages]
    exact tryInner_stages env s d tft label
  · intro env s d tft label ha hm1 hm2 hf hw ht hx
    exact flash_stages_full env s d tft label ha hm1 hm2 hf hw ht hx

/-- Witness for C5: a concrete benign run shows all four preparation stages
in the canonical order. -/
theorem uniflash_c5_witness :
    stagesOf ((flash_device baseEnv "iso" "1" "FAT" "USB").2) = canonicalStages :=
  uniflash_c5_fixed_order.2 baseEnv "iso" "1" "FAT" "USB" rfl rfl rfl rfl rfl rfl rfl

/- ## C2: FAT32-limit escalation of the filesystem type -/

theorem check_fat32_one_iff (files : List (String × Nat)) :
    (check_fat32_filesize_limitation files).1 = 1 ↔
      ∃ f ∈ files, f.2 > 2 ^ 32 - 1 := by
  induction files with
  | nil => simp [check_fat32_filesize_limitation]
  | cons f rest ih =>
    rcases f with ⟨q, sz⟩
    simp only [check_fat32_filesize_limitation]
    by_cases h : sz > 2 ^ 32 - 1
    · rw [if_pos h]
      constructor
      · intro _
        exact ⟨(q, sz), by simp, h⟩
      · intro _
        rfl
    · rw [if_neg h, ih]
      constructor
      · rintro ⟨f, hf, hs⟩
        exact ⟨f, by simp [hf], hs⟩
      · rintro ⟨f, hf, hs⟩
        rcases List.mem_cons.mp hf with he | hm
        · rw [he] at hs
          exact absurd hs h
        · exact ⟨f, hm, hs⟩

theorem fat32_scan_one_iff (tft : String) (files : List (String × Nat)) :
    (fat32_scan tft files).1 = 1 ↔
      (tft = "FAT" ∧ ∃ f ∈ files, f.2 > 2 ^ 32 - 1) := by
  unfold fat32_scan
  by_cases ht : (tft == "FAT") = true
  · rw [if_pos ht]
    have ht' : tft = "FAT" := by simpa using ht
    rw [check_fat32_one_iff files]
    simp [ht']
  · rw [if_neg ht]
    have ht' : ¬tft = "FAT" := by simpa using ht
    simp [ht']

theorem resolve_ntfs_iff (tft : String) (files : List (String × Nat)) :
    resolve_fs_type tft files = "NTFS" ↔
      (tft = "NTFS" ∨ (tft = "FAT" ∧ ∃ f ∈ files, f.2 > 2 ^ 32 - 1)) := by
  unfold resolve_fs_type
  by_cases hs : ((fat32_scan tft files).1 == 1) = true
  · rw [if_pos hs]
    have h1 := (fat32_scan_one_iff tft files).mp (by simpa using hs)
    constructor
    · intro _
      exact Or.inr h1
    · intro _
      rfl
  · rw [if_neg hs]
    have h1 : ¬(fat32_scan tft files).1 = 1 := by simpa using hs
    rw [fat32_scan_one_iff tft files] at h1
    constructor
    · intro h
      exact Or.inl h
    · rintro (h | h)
      · exact h
      · exact absurd h h1

theorem resolve_unchanged (tft : String) (files : List (String × Nat))
    (h : ¬∃ f ∈ files, f.2 > 2 ^ 32 - 1) : resolve_fs_type tft files = tft := by
  unfold resolve_fs_type
  by_cases hs : ((fat32_scan tft files).1 == 1) = true
  · exact absurd ((fat32_scan_one_iff tft files).mp (by simpa using hs)).2 h
  · rw [if_neg hs]

/-- C2 counterexample: a request for `"FAT32"` with a file of `2^32` bytes
(exceeding the FAT32 limit) is NOT escalated: the `core.py:218` guard
compares against the exact string `"FAT"`, so the resolved type stays
`"FAT32"` instead of becoming `"NTFS"` as the claim requires. -/
theorem uniflash_c2_counterexample :
    resolve_fs_type "FAT32" [("big", 2 ^ 32)] = "FAT32" ∧
    (2 : Nat) ^ 32 > 2 ^ 32 - 1 ∧
    resolve_fs_type "FAT32" [("big", 2 ^ 32)] ≠ "NTFS" := by
  decide

/-- C2 (amended).  The resolved filesystem type is `"NTFS"` exactly when the
request was already `"NTFS"`, or the request was literally `"FAT"` and some
source file exceeds `2^32 - 1` bytes (a `"FAT32"` request is never
escalated); when no file exceeds the limit the resolved type equals the
requested type unchanged; and every create/format command issued anywhere
in a `flash_device` run carries exactly the resolved type, fixed once
before the first formatting or partitioning command. -/
theorem uniflash_c2_amended (env : Env) (s d tft label : String) :
    (resolve_fs_type tft env.walkFiles = "NTFS" ↔
      (tft = "NTFS" ∨ (tft = "FAT" ∧ ∃ f ∈ env.walkFiles, f.2 > 2 ^ 32 - 1))) ∧
    ((¬∃ f ∈ env.walkFiles, f.2 > 2 ^ 32 - 1) →
      resolve_fs_type tft env.walkFiles = tft) ∧
    ∀ x b c k, Event.dpCreateFormat x b c k ∈ (flash_device env s d tft label).2 →
      b = resolve_fs_type tft env.walkFiles := by
  refine ⟨resolve_ntfs_iff tft env.walkFiles, resolve_unchanged tft env.walkFiles, ?_⟩
  have hcount : (((flash_device env s d tft label).2).countP
      (Event.isCreateFormatNotFs (resolve_fs_type tft env.walkFiles))) = 0 := by
    unfold flash_device
    rw [List.countP_append]
    have hb := countP_flash_body
      (Event.isCreateFormatNotFs (resolve_fs_type tft env.walkFiles))
      env s d tft label
      (by intro t c; rfl) (by intro st; rfl) (by intro x; rfl)
      (by intro x k; rfl) (by intro x y k; rfl)
      (by intro x c k; simp [Event.isCreateFormatNotFs])
      (by intro a b; rfl) rfl rfl (by intro a b; rfl) rfl rfl (by intro x; rfl)
    rw [hb]
    rfl
  intro x b c k hmem
  have := List.countP_eq_zero.mp hcount _ hmem
  simpa [Event.isCreateFormatNotFs] using this

/-- Witness for C2: a `"FAT"` request with an oversized file resolves to
`"NTFS"`, via the amended theorem. -/
theorem uniflash_c2_witness :
    resolve_fs_type "FAT" [("big", 2 ^ 32)] = "NTFS" :=
  (uniflash_c2_amended { baseEnv with walkFiles := [("big", 2 ^ 32)] }
    "iso" "1" "FAT" "USB").1.mpr
    (Or.inr ⟨rfl, ⟨("big", 2 ^ 32), by simp [baseEnv], by norm_num⟩⟩)

/- ## C4: runtime-parameter validation (device mode) -/

theorem matchesDriveRoot_not_bare (t : String) (h : matchesDriveRoot t = true) :
    matchesBareDrive t = false := by
  unfold matchesDriveRoot at h
  unfold matchesBareDrive
  rcases t with ⟨l⟩
  rcases l with _ | ⟨a, _ | ⟨b, _ | ⟨c, rest⟩⟩⟩ <;> simp_all

/-- C4.  `check_runtime_parameters` in whole-device mode rejects the target
`"X:"` (returning 1, not 0 as the claim requires), and in fact rejects
every target: the drive-letter test `^[A-Z]:\\` demands a backslash that
the device test `^[A-Z]:$` forbids, so the two can never hold together and
validation in install mode `"device"` never returns 0. -/
theorem uniflash_c4_device_mode_rejected :
    check_runtime_parameters "device" true "X:" = 1 ∧
    ∀ (b : Bool) (t : String), check_runtime_parameters "device" b t ≠ 0 := by
  constructor
  · rfl
  · intro b t h
    unfold check_runtime_parameters at h
    by_cases hb : b = true
    · rw [hb] at h
      simp only [Bool.not_true] at h
      by_cases hroot : matchesDriveRoot t = true
      · rw [hroot] at h
        have hbare := matchesDriveRoot_not_bare t hroot
        simp [hbare] at h
      · have : matchesDriveRoot t = false := by
          cases hq : matchesDriveRoot t
          · rfl
          · exact absurd hq hroot
        simp [this] at h
    · have : b = false := by
        cases b
        · rfl
        · exact absurd rfl hb
      rw [this] at h
      simp at h

/- ## C9: cleanup is not idempotent -/

/-- C9 counterexample: running `cleanup` a second time on the same session
state raises (`shutil.rmtree` fails on the already-removed temp directory),
and running it when the temp directory was never created raises as well —
so `cleanup` is neither idempotent nor safe when resources were never
acquired. -/
theorem uniflash_c9_counterexample :
    ((cleanup (cleanup ⟨true, false, true⟩).1).2).isSome = true ∧
    ((cleanup ⟨false, false, false⟩).2).isSome = true := by
  decide

/-- C9 (amended).  `cleanup` succeeds exactly when the temp directory still
exists; it flags the reporter to stop when alive; after any call the temp
directory is gone, so a second call on the resulting state always raises
`FileNotFoundError` from `shutil.rmtree` — `cleanup` is safe only the
first time and is not idempotent. -/
theorem uniflash_c9_amended (s : CleanState) :
    ((cleanup s).2 = none ↔ s.tempDirExists = true) ∧
    (cleanup s).1.tempDirExists = false ∧
    (s.reporterAlive = true → (cleanup s).1.reporterStop = true) ∧
    (cleanup (cleanup s).1).2 ≠ none := by
  rcases s with ⟨a, st, td⟩
  cases a <;> cases st <;> cases td <;> decide

/-- Witness for C9: a fresh session state (temp directory present) cleans
up without error. -/
theorem uniflash_c9_witness : (cleanup ⟨false, false, true⟩).2 = none :=
  (uniflash_c9_amended ⟨false, false, true⟩).1.mpr rfl

/- ## Exact behaviour of components under specific conditions -/

theorem RunM.bind_res_ok {α β : Type} (x : RunM α) (f : α → RunM β) (a : α)
    (h : x.res = .ok a) :
    (x >>= f) = ⟨(f a).res, x.trace ++ (f a).trace⟩ := by
  rcases x with ⟨r, tr⟩
  cases r with
  | ok b =>
    have hb : b = a := by simpa using h
    rw [hb]
    rfl
  | error e => exact absurd h (by simp)

theorem mount_source_eq_ok (env : Env) (m mp : String)
    (h1 : env.mountSourceExc = none) (h2 : env.mountSourceOk = true) :
    mount_source_filesystem env m mp =
      ⟨.ok 0, [.msg mountingSourceText .green, .mountSource m mp]⟩ := by
  simp [mount_source_filesystem, h1, h2, emit]

theorem format_eq_hasPart (env : Env) (dev fs : String)
    (hf : env.formatExc = none) (hp : env.hasPartitions = true) :
    format_target_device env dev fs =
      ⟨.ok (), [.msg (checkingFormatText dev) .green, .psGetPartitions dev,
        .msg hasPartitionText .green]⟩ := by
  simp [format_target_device, hf, hp, emit]

theorem wipe_eq_ok (env : Env) (dev : String) (hw : env.wipeExc = none) :
    wipe_existing_partition_table_and_filesystem_signatures env dev =
      ⟨.ok (), [.msg (wipingText dev) .green, .dpClean dev env.wipeExit]⟩ := by
  simp [wipe_existing_partition_table_and_filesystem_signatures, hw, emit]

theorem wipe_eq_exc (env : Env) (dev : String) (m : String)
    (hw : env.wipeExc = some m) :
    wipe_existing_partition_table_and_filesystem_signatures env dev =
      ⟨.error (.pyError m), [.msg (wipingText dev) .green]⟩ := by
  simp [wipe_existing_partition_table_and_filesystem_signatures, hw, RunM.raise]

theorem table_eq_ok (env : Env) (dev : String) (ht : env.tableExc = none) :
    create_target_partition_table env dev "legacy" =
      ⟨.ok (), [.msg (creatingTableText dev) .green,
        .dpConvert dev "mbr" env.tableExit]⟩ := by
  simp [create_target_partition_table, ht, emit]

theorem create_eq_ok (env : Env) (dev fs label : String) (hx : env.partExc = none) :
    create_target_partition env dev fs label =
      ⟨.ok (), [.msg creatingPartitionText .green,
        .dpCreateFormat dev fs label env.partExit]⟩ := by
  simp [create_target_partition, hx, emit]

theorem copyLoop_ok (env : Env) (s t : String) (ps : List String)
    (h : ∀ q ∈ ps, env.copyFail q = false) :
    copyLoop env s t ps = ⟨.ok (), ps.map fun q => .copyFile q (copyDest s t q)⟩ := by
  induction ps with
  | nil => rfl
  | cons q rest ih =>
    have hq : env.copyFail q = false := h q (by simp)
    have hr : ∀ x ∈ rest, env.copyFail x = false := fun x hx => h x (by simp [hx])
    simp [copyLoop, hq, emit, ih hr]

theorem copyLoop_fail (env : Env) (s t : String) (l : List String) (q : String)
    (r : List String) (hl : ∀ x ∈ l, env.copyFail x = false)
    (hq : env.copyFail q = true) :
    copyLoop env s t (l ++ q :: r) =
      ⟨.error (.pyError (copy2ErrMsg q)), l.map fun x => .copyFile x (copyDest s t x)⟩ := by
  induction l with
  | nil => simp [copyLoop, hq, RunM.raise]
  | cons a l ih =>
    have ha : env.copyFail a = false := hl a (by simp)
    have hl' : ∀ x ∈ l, env.copyFail x = false := fun x hx => hl x (by simp [hx])
    simp [copyLoop, ha, emit, ih hl']

theorem copy_files_eq_ok (env : Env) (s t : String)
    (hk : (env.guiPresent && env.guiKill) = false)
    (h : ∀ q ∈ walkPaths env.copyWalk, env.copyFail q = false) :
    copy_filesystem_files env s t =
      ⟨.ok (), .killCheck :: .reporterStart ::
        (((walkPaths env.copyWalk).map fun q => .copyFile q (copyDest s t q)) ++
          [.reporterStopSet])⟩ := by
  simp [copy_filesystem_files, hk, emit, copyLoop_ok env s t _ h]

theorem copy_files_eq_kill (env : Env) (s t : String)
    (hk : (env.guiPresent && env.guiKill) = true) :
    copy_filesystem_files env s t = ⟨.error .systemExit, [.killCheck]⟩ := by
  simp [copy_filesystem_files, hk]

theorem install_eq_warn (env : Env) (part dir : String)
    (hk : (env.guiPresent && env.guiKill) = false) (hd : env.downloadOk = false) :
    install_uefi_ntfs_support_partition env part dir =
      ⟨.ok 1, [.killCheck, .fetchImage, .msg warnDownloadText .yellow]⟩ := by
  simp [install_uefi_ntfs_support_partition, hk, hd, emit]

theorem fat32WarnText_ne (p : String) : fat32WarnText p ≠ warnDownloadText := by
  intro h
  have hl := congrArg String.length h
  rw [fat32WarnText, warnDownloadText, String.length_append, String.length_append]
    at hl
  have h1 : ("Warning: File ").length = 14 := rfl
  have h2 : (" exceeds the FAT32 4GiB limit, switching to NTFS.").length = 49 := rfl
  have h3 : ("Warning: Unable to download UEFI:NTFS image.").length = 44 := rfl
  rw [h1, h2, h3] at hl
  omega

theorem countP_fat32_download (files : List (String × Nat)) :
    (((check_fat32_filesize_limitation files).2).countP Event.isDownloadWarn) = 0 := by
  induction files with
  | nil => rfl
  | cons f rest ih =>
    rcases f with ⟨q, sz⟩
    simp only [check_fat32_filesize_limitation]
    split
    · simp [Event.isDownloadWarn, List.countP_cons,
        beq_eq_false_iff_ne, fat32WarnText_ne q]
    · exact ih

theorem countP_scan_download (tft : String) (files : List (String × Nat)) :
    (((fat32_scan tft files).2).countP Event.isDownloadWarn) = 0 := by
  unfold fat32_scan
  split
  · exact countP_fat32_download files
  · rfl

theorem post_eq_kill (env : Env) (dev fs : String)
    (hk : (env.guiPresent && env.guiKill) = true) :
    pipeline_post env dev fs =
      ⟨.error .systemExit, [.msg mountingTargetText .green, .killCheck]⟩ := by
  simp [pipeline_post, copy_files_eq_kill env _ _ hk]

theorem post_eq_warn (env : Env) (dev : String)
    (hk : (env.guiPresent && env.guiKill) = false)
    (hfail : ∀ q ∈ walkPaths env.copyWalk, env.copyFail q = false)
    (hd : env.downloadOk = false) :
    pipeline_post env dev "NTFS" =
      ⟨.ok .retNone, .msg mountingTargetText .green :: .killCheck :: .reporterStart ::
        (((walkPaths env.copyWalk).map fun q =>
            .copyFile q (copyDest env.srcMp env.tgtMp q)) ++
          [.reporterStopSet, .msg creatingUefiText .green, .killCheck, .fetchImage,
            .msg warnDownloadText .yellow])⟩ := by
  simp [pipeline_post, copy_files_eq_ok env _ _ hk hfail,
    install_eq_warn env _ _ hk hd, emit]

@[simp] theorem isDownloadWarn_green (t : String) :
    Event.isDownloadWarn (.msg t .green) = false := by
  show (t == warnDownloadText && (Color.green == Color.yellow)) = false
  rw [show (Color.green == Color.yellow) = false from rfl, Bool.and_false]

@[simp] theorem isDownloadWarn_red (t : String) :
    Event.isDownloadWarn (.msg t .red) = false := by
  show (t == warnDownloadText && (Color.red == Color.yellow)) = false
  rw [show (Color.red == Color.yellow) = false from rfl, Bool.and_false]

theorem countP_map_copyFile (p : Event → Bool) (h : ∀ a b, p (.copyFile a b) = false)
    (l : List String) (f : String → String) :
    ((l.map fun q => Event.copyFile q (f q)).countP p) = 0 := by
  rw [List.countP_eq_zero]
  intro e he
  rcases List.mem_map.mp he with ⟨q, _, rfl⟩
  simp [h]

/-- Once past the admin check and a successful source mount, `tryInner` is
the FAT32 scan followed by preparation and post-processing with the
resolved filesystem type. -/
theorem tryInner_eq_main (env : Env) (s d tft label : String)
    (ha : env.isAdmin = true) (hm1 : env.mountSourceExc = none)
    (hm2 : env.mountSourceOk = true) :
    tryInner env s d tft label =
      ⟨(pipeline_prep env d (resolve_fs_type tft env.walkFiles) label >>= fun _ =>
          pipeline_post env d (resolve_fs_type tft env.walkFiles)).res,
        [.msg mountingSourceText .green, .mountSource s env.srcMp] ++
          ((fat32_scan tft env.walkFiles).2 ++
            (pipeline_prep env d (resolve_fs_type tft env.walkFiles) label >>= fun _ =>
              pipeline_post env d (resolve_fs_type tft env.walkFiles)).trace)⟩ := by
  unfold tryInner
  rw [if_pos ha, mount_source_eq_ok env s env.srcMp hm1 hm2]
  rfl

theorem flash_body_of_ok (env : Env) (s d tft label : String) (v : FlashResult)
    (tr : List Event) (hE : tryInner env s d tft label = ⟨.ok v, tr⟩) :
    flash_try_body env s d tft label = (v, tr) := by
  unfold flash_try_body
  rw [hE]

theorem flash_body_of_sysExit (env : Env) (s d tft label : String)
    (tr : List Event) (hE : tryInner env s d tft label = ⟨.error .systemExit, tr⟩) :
    flash_try_body env s d tft label = (.sysExit, tr) := by
  unfold flash_try_body
  rw [hE]

theorem flash_body_of_pyError (env : Env) (s d tft label : String) (m : String)
    (tr : List Event) (hE : tryInner env s d tft label = ⟨.error (.pyError m), tr⟩)
    (hg : env.guiPresent = false) :
    flash_try_body env s d tft label = (.retOne, tr ++ [.msg m .red]) := by
  unfold flash_try_body
  rw [hE]
  show (match print_with_color env m .red with
    | ⟨.ok _, tr2⟩ => (FlashResult.retOne, tr ++ tr2)
    | ⟨.error _, tr2⟩ => (FlashResult.sysExit, tr ++ tr2)) = _
  rw [print_red_eq, hg]
  rfl

/- ## C8: a failed boot-support download is one warning, not an abort -/

theorem tryInner_c8 (env : Env) (s d tft label : String)
    (ha : env.isAdmin = true) (hm1 : env.mountSourceExc = none)
    (hm2 : env.mountSourceOk = true) (hf : env.formatExc = none)
    (hw : env.wipeExc = none) (ht : env.tableExc = none) (hx : env.partExc = none)
    (hk : (env.guiPresent && env.guiKill) = false)
    (hfail : ∀ q ∈ walkPaths env.copyWalk, env.copyFail q = false)
    (hres : resolve_fs_type tft env.walkFiles = "NTFS")
    (hd : env.downloadOk = false) :
    (tryInner env s d tft label).res = .ok FlashResult.retNone ∧
    (((tryInner env s d tft label).trace).countP Event.isDownloadWarn) = 1 := by
  have hprep := prep_ok env d (resolve_fs_type tft env.walkFiles) label hf hw ht hx
  have hpost : pipeline_post env d (resolve_fs_type tft env.walkFiles) =
      ⟨.ok .retNone, .msg mountingTargetText .green :: .killCheck :: .reporterStart ::
        (((walkPaths env.copyWalk).map fun q =>
            .copyFile q (copyDest env.srcMp env.tgtMp q)) ++
          [.reporterStopSet, .msg creatingUefiText .green, .killCheck, .fetchImage,
            .msg warnDownloadText .yellow])⟩ := by
    rw [hres]
    exact post_eq_warn env d hk hfail hd
  have hpp := RunM.bind_res_ok
    (pipeline_prep env d (resolve_fs_type tft env.walkFiles) label)
    (fun _ => pipeline_post env d (resolve_fs_type tft env.walkFiles)) () hprep.1
  rw [tryInner_eq_main env s d tft label ha hm1 hm2, hpp, hpost]
  constructor
  · rfl
  · show ((([Event.msg mountingSourceText .green, Event.mountSource s env.srcMp]) ++
      ((fat32_scan tft env.walkFiles).2 ++
        ((pipeline_prep env d (resolve_fs_type tft env.walkFiles) label).trace ++
          _))).countP Event.isDownloadWarn) = 1
    rw [List.countP_append, List.countP_append, List.countP_append]
    have c1 : (([Event.msg mountingSourceText .green,
        Event.mountSource s env.srcMp]).countP Event.isDownloadWarn) = 0 := rfl
    have c2 := countP_scan_download tft env.walkFiles
    have c3 : (((pipeline_prep env d (resolve_fs_type tft env.walkFiles)
        label).trace).countP Event.isDownloadWarn) = 0 :=
      countP_prep Event.isDownloadWarn env d _ label (fun _ => rfl)
        (isDownloadWarn_green _) rfl (isDownloadWarn_green _) (isDownloadWarn_green _)
        (isDownloadWarn_green _) (fun _ _ => rfl) (isDownloadWarn_green _)
        (fun _ => rfl) (isDownloadWarn_green _) (fun _ => rfl)
    have c4 : (((Event.msg mountingTargetText .green :: Event.killCheck ::
        Event.reporterStart ::
        (((walkPaths env.copyWalk).map fun q =>
            Event.copyFile q (copyDest env.srcMp env.tgtMp q)) ++
          [Event.reporterStopSet, Event.msg creatingUefiText .green, Event.killCheck,
            Event.fetchImage, Event.msg warnDownloadText .yellow]) :
        List Event)).countP Event.isDownloadWarn) = 1 := by
      rw [List.countP_cons, List.countP_cons, List.countP_cons, List.countP_append,
        countP_map_copyFile Event.isDownloadWarn (fun _ _ => rfl)]
      rfl
    rw [c1, c2, c3, c4]

/-- C8.  When every stage through the copy succeeds and the resolved
filesystem type is NTFS, a network failure while fetching the UEFI:NTFS
boot-support image leaves exactly one download warning in the trace and
`flash_device` still falls through to normal completion (Python `None`):
the fetch failure never aborts the operation. -/
theorem uniflash_c8_warning_nonfatal (env : Env) (s d tft label : String)
    (ha : env.isAdmin = true) (hm1 : env.mountSourceExc = none)
    (hm2 : env.mountSourceOk = true) (hf : env.formatExc = none)
    (hw : env.wipeExc = none) (ht : env.tableExc = none) (hx : env.partExc = none)
    (hk : (env.guiPresent && env.guiKill) = false)
    (hfail : ∀ q ∈ walkPaths env.copyWalk, env.copyFail q = false)
    (hres : resolve_fs_type tft env.walkFiles = "NTFS")
    (hd : env.downloadOk = false) :
    (flash_device env s d tft label).1 = FlashResult.retNone ∧
    (((flash_device env s d tft label).2).countP Event.isDownloadWarn) = 1 := by
  obtain ⟨h1, h2⟩ := tryInner_c8 env s d tft label ha hm1 hm2 hf hw ht hx hk
    hfail hres hd
  rcases hE : tryInner env s d tft label with ⟨r, tr⟩
  rw [hE] at h1 h2
  have hr : r = .ok FlashResult.retNone := h1
  have htr : tr.countP Event.isDownloadWarn = 1 := h2
  rw [hr] at hE
  have hbody := flash_body_of_ok env s d tft label .retNone tr hE
  unfold flash_device
  rw [hbody]
  refine ⟨rfl, ?_⟩
  show ((tr ++ finallyTrace).countP Event.isDownloadWarn) = 1
  rw [List.countP_append, htr]
  rfl

/-- Witness for C8: a concrete NTFS run with a failed download completes
normally with exactly one download warning. -/
theorem uniflash_c8_witness :
    (flash_device envC8w "iso" "1" "NTFS" "USB").1 = FlashResult.retNone ∧
    (((flash_device envC8w "iso" "1" "NTFS" "USB").2).countP
      Event.isDownloadWarn) = 1 :=
  uniflash_c8_warning_nonfatal envC8w "iso" "1" "NTFS" "USB" rfl rfl rfl rfl rfl
    rfl rfl rfl (by decide) rfl rfl

/- ## C6: placement of the kill-signal checks -/

/-- C6 counterexample: in a benign GUI run (kill flag clear) over three
files with an NTFS request, the kill flag is checked exactly twice in the
whole run (once at the start of `copy_filesystem_files`, once at the start
of `install_uefi_ntfs_support_partition`) although three files are copied
— so it is not checked once per file — and all four destructive
preparation stages run before the first check — so it is not checked at
the start of the stages above Copying. -/
theorem uniflash_c6_counterexample :
    (((flash_device envC6 "iso" "1" "NTFS" "USB").2).countP Event.isKillCheck) = 2 ∧
    (((flash_device envC6 "iso" "1" "NTFS" "USB").2).countP Event.isCopyFile) = 3 ∧
    ((((flash_device envC6 "iso" "1" "NTFS" "USB").2).takeWhile
        (fun e => !e.isKillCheck)).countP
      (fun e => (e.stageOf).isSome)) = 4 := by
  decide

theorem tryInner_c6 (env : Env) (s d tft label : String)
    (ha : env.isAdmin = true) (hm1 : env.mountSourceExc = none)
    (hm2 : env.mountSourceOk = true) (hf : env.formatExc = none)
    (hw : env.wipeExc = none) (ht : env.tableExc = none) (hx : env.partExc = none)
    (hkill : (env.guiPresent && env.guiKill) = true) :
    (tryInner env s d tft label).res = .error .systemExit ∧
    (((tryInner env s d tft label).trace).countP Event.isKillCheck) = 1 ∧
    (((tryInner env s d tft label).trace).countP Event.isCopyFile) = 0 ∧
    (((tryInner env s d tft label).trace).countP Event.isFetch) = 0 := by
  have hprep := prep_ok env d (resolve_fs_type tft env.walkFiles) label hf hw ht hx
  have hpost := post_eq_kill env d (resolve_fs_type tft env.walkFiles) hkill
  have hpp := RunM.bind_res_ok
    (pipeline_prep env d (resolve_fs_type tft env.walkFiles) label)
    (fun _ => pipeline_post env d (resolve_fs_type tft env.walkFiles)) () hprep.1
  rw [tryInner_eq_main env s d tft label ha hm1 hm2, hpp, hpost]
  refine ⟨rfl, ?_, ?_, ?_⟩ <;>
  · rw [show ∀ (a b c : List Event), (RunM.mk (α := FlashResult)
      (.error .systemExit) (a ++ (b ++ (c ++ [Event.msg mountingTargetText .green,
        Event.killCheck])))).trace = a ++ (b ++ (c ++ [Event.msg mountingTargetText
        .green, Event.killCheck])) from fun _ _ _ => rfl]
    rw [List.countP_append, List.countP_append, List.countP_append]
    first
    | rw [countP_scan (fun e => Event.isKillCheck e) tft env.walkFiles (fun _ => rfl),
        countP_prep Event.isKillCheck env d _ label (fun _ => rfl) rfl rfl rfl rfl
          rfl (fun _ _ => rfl) rfl (fun _ => rfl) rfl (fun _ => rfl)]
      rfl
    | rw [countP_scan (fun e => Event.isCopyFile e) tft env.walkFiles (fun _ => rfl),
        countP_prep Event.isCopyFile env d _ label (fun _ => rfl) rfl rfl rfl rfl
          rfl (fun _ _ => rfl) rfl (fun _ => rfl) rfl (fun _ => rfl)]
      rfl
    | rw [countP_scan (fun e => Event.isFetch e) tft env.walkFiles (fun _ => rfl),
        countP_prep Event.isFetch env d _ label (fun _ => rfl) rfl rfl rfl rfl
          rfl (fun _ _ => rfl) rfl (fun _ => rfl) rfl (fun _ => rfl)]
      rfl

/-- C6 (amended).  The kill signal is checked only at the start of
`copy_filesystem_files` and at the start of
`install_uefi_ntfs_support_partition` — never at the stages above Copying
and never per file.  When the flag is observed set at the copy's entry
check, `SystemExit` propagates (`flash_device` ends in `sysExit`, not a
distinct cancelled result), no file is copied, the fetch is never
attempted, cleanup still runs exactly once via `finally` — and all four
destructive preparation steps have already completed before that first and
only check. -/
theorem uniflash_c6_amended (env : Env) (s d tft label : String)
    (ha : env.isAdmin = true) (hm1 : env.mountSourceExc = none)
    (hm2 : env.mountSourceOk = true) (hf : env.formatExc = none)
    (hw : env.wipeExc = none) (ht : env.tableExc = none) (hx : env.partExc = none)
    (hg : env.guiPresent = true) (hk : env.guiKill = true) :
    (flash_device env s d tft label).1 = FlashResult.sysExit ∧
    (((flash_device env s d tft label).2).countP Event.isKillCheck) = 1 ∧
    (((flash_device env s d tft label).2).countP Event.isCopyFile) = 0 ∧
    (((flash_device env s d tft label).2).countP Event.isFetch) = 0 ∧
    (((flash_device env s d tft label).2).countP Event.isCleanup) = 1 ∧
    stagesOf ((flash_device env s d tft label).2) = canonicalStages := by
  have hkill : (env.guiPresent && env.guiKill) = true := by rw [hg, hk]; rfl
  obtain ⟨h1, h2, h3, h4⟩ := tryInner_c6 env s d tft label ha hm1 hm2 hf hw ht hx hkill
  rcases hE : tryInner env s d tft label with ⟨r, tr⟩
  rw [hE] at h1 h2 h3 h4
  have hr : r = .error .systemExit := h1
  rw [hr] at hE
  have hbody := flash_body_of_sysExit env s d tft label tr hE
  refine ⟨?_, ?_, ?_, ?_, ?_, ?_⟩
  · unfold flash_device
    rw [hbody]
  · unfold flash_device
    rw [hbody]
    show ((tr ++ finallyTrace).countP Event.isKillCheck) = 1
    rw [List.countP_append, (h2 : tr.countP Event.isKillCheck = 1)]
    rfl
  · unfold flash_device
    rw [hbody]
    show ((tr ++ finallyTrace).countP Event.isCopyFile) = 0
    rw [List.countP_append, (h3 : tr.countP Event.isCopyFile = 0)]
    rfl
  · unfold flash_device
    rw [hbody]
    show ((tr ++ finallyTrace).countP Event.isFetch) = 0
    rw [List.countP_append, (h4 : tr.countP Event.isFetch = 0)]
    rfl
  · exact flash_cleanup_once env s d tft label
  · exact flash_stages_full env s d tft label ha hm1 hm2 hf hw ht hx

/-- Witness for C6: a concrete GUI run with the kill flag set exits via
`SystemExit` after the preparation steps, before any file copy. -/
theorem uniflash_c6_witness :
    (flash_device envC6w "iso" "1" "FAT" "USB").1 = FlashResult.sysExit :=
  (uniflash_c6_amended envC6w "iso" "1" "FAT" "USB" rfl rfl rfl rfl rfl rfl rfl
    rfl rfl).1

/- ## C3: diskpart failures in the device-modification steps -/

/-- C3 counterexample: with the external `diskpart clean` command exiting
with status 1 (a failed wipe), `flash_device` still falls through to
normal completion, no red (fatal) message is ever printed, and the failed
step is visible only as the `dpClean` trace event carrying exit code 1 —
the failure is silently discarded rather than surfaced as a distinguishable
device-modification error. -/
theorem uniflash_c3_counterexample :
    (flash_device envC3 "iso" "1" "FAT" "USB").1 = FlashResult.retNone ∧
    Event.dpClean "1" 1 ∈ (flash_device envC3 "iso" "1" "FAT" "USB").2 ∧
    (((flash_device envC3 "iso" "1" "FAT" "USB").2).countP Event.isRedMsg) = 0 := by
  decide

theorem prep_eq_wipe_exc (env : Env) (dev fs label : String)
    (hf : env.formatExc = none) (hp : env.hasPartitions = true) (m : String)
    (hwx : env.wipeExc = some m) :
    pipeline_prep env dev fs label =
      ⟨.error (.pyError m),
        [.stage .detectOrCreate, .msg (checkingFormatText dev) .green,
          .psGetPartitions dev, .msg hasPartitionText .green,
          .stage .wipeSignatures, .msg (wipingText dev) .green]⟩ := by
  simp [pipeline_prep, format_eq_hasPart env dev fs hf hp,
    wipe_eq_exc env dev m hwx, emit]

theorem tryInner_c3 (env : Env) (s d tft label : String)
    (ha : env.isAdmin = true) (hm1 : env.mountSourceExc = none)
    (hm2 : env.mountSourceOk = true) (hf : env.formatExc = none)
    (hp : env.hasPartitions = true) (m : String) (hwx : env.wipeExc = some m) :
    tryInner env s d tft label =
      ⟨.error (.pyError m),
        [.msg mountingSourceText .green, .mountSource s env.srcMp] ++
          ((fat32_scan tft env.walkFiles).2 ++
            [.stage .detectOrCreate, .msg (checkingFormatText d) .green,
              .psGetPartitions d, .msg hasPartitionText .green,
              .stage .wipeSignatures, .msg (wipingText d) .green])⟩ := by
  rw [tryInner_eq_main env s d tft label ha hm1 hm2,
    prep_eq_wipe_exc env d (resolve_fs_type tft env.walkFiles) label hf hp m hwx]
  rfl

/-- C3 (amended).  The wipe, partition-table and create/format steps never
inspect the diskpart exit status: their outcome is independent of the exit
code, and with no raised exception each returns successfully whatever the
external command reported, so a failed command is silently discarded.  The
only way such a step aborts the operation is a raised Python exception,
which the `except Exception` handler reduces to a bare red print of
`str(error)` and `return 1` — with no structured error identifying the
sub-step — and which prevents the later steps from running. -/
theorem uniflash_c3_amended :
    (∀ (env : Env) (dev : String) (k : Nat),
      (wipe_existing_partition_table_and_filesystem_signatures
        { env with wipeExit := k } dev).res =
      (wipe_existing_partition_table_and_filesystem_signatures env dev).res) ∧
    (∀ (env : Env) (dev : String), env.wipeExc = none →
      (wipe_existing_partition_table_and_filesystem_signatures env dev).res
        = .ok ()) ∧
    (∀ (env : Env) (dev : String) (k : Nat),
      (create_target_partition_table { env with tableExit := k } dev "legacy").res =
      (create_target_partition_table env dev "legacy").res) ∧
    (∀ (env : Env) (dev : String), env.tableExc = none →
      (create_target_partition_table env dev "legacy").res = .ok ()) ∧
    (∀ (env : Env) (dev fs label : String) (k : Nat),
      (create_target_partition { env with partExit := k } dev fs label).res =
      (create_target_partition env dev fs label).res) ∧
    (∀ (env : Env) (dev fs label : String), env.partExc = none →
      (create_target_partition env dev fs label).res = .ok ()) ∧
    ∀ (env : Env) (s d tft label m : String), env.isAdmin = true →
      env.mountSourceExc = none → env.mountSourceOk = true →
      env.formatExc = none → env.hasPartitions = true →
      env.wipeExc = some m → env.guiPresent = false →
      (flash_device env s d tft label).1 = FlashResult.retOne ∧
      Event.msg m .red ∈ (flash_device env s d tft label).2 ∧
      (((flash_device env s d tft label).2).countP Event.isConvert) = 0 := by
  refine ⟨?_, ?_, ?_, ?_, ?_, ?_, ?_⟩
  · intro env dev k
    cases h : env.wipeExc <;>
      simp [wipe_existing_partition_table_and_filesystem_signatures, h,
        RunM.raise, emit]
  · intro env dev h
    simp [wipe_existing_partition_table_and_filesystem_signatures, h, emit]
  · intro env dev k
    cases h : env.tableExc <;>
      simp [create_target_partition_table, h, RunM.raise, emit]
  · intro env dev h
    simp [create_target_partition_table, h, emit]
  · intro env dev fs label k
    cases h : env.partExc <;>
      simp [create_target_partition, h, RunM.raise, emit]
  · intro env dev fs label h
    simp [create_target_partition, h, emit]
  · intro env s d tft label m ha hm1 hm2 hf hp hwx hg
    have hTI := tryInner_c3 env s d tft label ha hm1 hm2 hf hp m hwx
    have hbody := flash_body_of_pyError env s d tft label m _ hTI hg
    unfold flash_device
    rw [hbody]
    refine ⟨rfl, ?_, ?_⟩
    · show Event.msg m .red ∈ (_ ++ [Event.msg m Color.red]) ++ finallyTrace
      simp
    · show ((((([Event.msg mountingSourceText .green, Event.mountSource s env.srcMp])
        ++ ((fat32_scan tft env.walkFiles).2 ++ _)) ++ [Event.msg m Color.red]) ++
          finallyTrace).countP Event.isConvert) = 0
      rw [List.countP_append, List.countP_append, List.countP_append,
        List.countP_append]
      rw [countP_scan (fun e => Event.isConvert e) tft env.walkFiles (fun _ => rfl)]
      rfl

/-- Witness for C3: a concrete run whose wipe step raises ends with
`return 1`. -/
theorem uniflash_c3_witness :
    (flash_device envC3w "iso" "1" "FAT" "USB").1 = FlashResult.retOne :=
  (uniflash_c3_amended.2.2.2.2.2.2 envC3w "iso" "1" "FAT" "USB" "boom"
    rfl rfl rfl rfl rfl rfl rfl).1

/- ## C7: the per-file copy destination -/

theorem isPrefixOf_append_self (l r : List Char) : l.isPrefixOf (l ++ r) = true := by
  induction l with
  | nil =>
    rw [List.nil_append]
    cases r <;> rfl
  | cons a l ih => simp [List.isPrefixOf, ih]

theorem occursIn_cons (pat : List Char) (c : Char) (rest : List Char) :
    occursIn pat (c :: rest) = (pat.isPrefixOf (c :: rest) || occursIn pat rest) := by
  unfold occursIn
  rw [show (c :: rest).length + 1 = (rest.length + 1) + 1 from by simp,
    List.range_succ_eq_map, List.any_cons, List.any_map]
  rfl

theorem replaceAllFuel_no_occur (pat rep : List Char) (hp : pat ≠ []) :
    ∀ (fuel : Nat) (l : List Char), occursIn pat l = false →
      replaceAllFuel pat rep fuel l = l := by
  intro fuel
  induction fuel with
  | zero =>
    intro l _
    cases l <;> rfl
  | succ fuel ih =>
    intro l h
    cases l with
    | nil => rfl
    | cons c rest =>
      rw [occursIn_cons] at h
      have h1 : pat.isPrefixOf (c :: rest) = false := by
        cases hq : pat.isPrefixOf (c :: rest)
        · rfl
        · rw [hq] at h
          simp at h
      have h2 : occursIn pat rest = false := by
        cases hq : occursIn pat rest
        · rfl
        · rw [hq] at h
          simp at h
      simp only [replaceAllFuel, h1, Bool.and_false]
      rw [ih rest h2]
      simp

theorem replaceAllFuel_strip (pat r : List Char) (hp : pat ≠ [])
    (h : occursIn pat r = false) :
    replaceAllFuel pat [] (pat ++ r).length (pat ++ r) = r := by
  cases pat with
  | nil => exact absurd rfl hp
  | cons pc pcs =>
    have hlen : ((pc :: pcs) ++ r).length = (pcs.length + r.length) + 1 := by
      simp [List.length_append]
    rw [hlen]
    show replaceAllFuel (pc :: pcs) [] ((pcs.length + r.length) + 1)
      (pc :: (pcs ++ r)) = r
    have hpre : (pc :: pcs).isPrefixOf (pc :: (pcs ++ r)) = true :=
      isPrefixOf_append_self (pc :: pcs) r
    have hne : ((pc :: pcs : List Char) ≠ []) := by simp
    have hcond : (decide ((pc :: pcs : List Char) ≠ []) &&
        (pc :: pcs).isPrefixOf (pc :: (pcs ++ r))) = true := by
      rw [hpre, Bool.and_true]
      rfl
    simp only [replaceAllFuel]
    rw [if_pos hcond, List.nil_append,
      show (pc :: pcs).length - 1 = pcs.length from rfl, List.drop_left]
    exact replaceAllFuel_no_occur (pc :: pcs) [] hne _ r h

theorem copyDest_of_only_leading (src tgt p : String) (rdata : List Char)
    (hp : p.data = src.data ++ rdata) (hs : src.data ≠ [])
    (hocc : occursIn src.data rdata = false) :
    copyDest src tgt p = stripDest src tgt p := by
  unfold copyDest stripDest pyReplace
  congr 1
  show String.mk (replaceAllFuel src.data ([] : List Char) p.data.length p.data) =
    String.mk (p.data.drop src.data.length)
  rw [hp, replaceAllFuel_strip src.data rdata hs hocc, List.drop_left]

/-- C7 counterexample: with source mountpoint `"s"` and a subdirectory also
named `"s"`, the file `s\s\f` is copied to `t\\f` — the code's
`path.replace(source, "")` removes every occurrence of the mountpoint
string, not just the leading one — instead of the relative-path-preserving
destination `t\s\f` the claim requires. -/
theorem uniflash_c7_counterexample :
    (copy_filesystem_files envC7 "s" "t").trace =
      [.killCheck, .reporterStart, .copyFile "s\\s\\f" "t\\\\f",
        .reporterStopSet] ∧
    stripDest "s" "t" "s\\s\\f" = "t\\s\\f" ∧
    ("t\\\\f" : String) ≠ "t\\s\\f" := by
  decide

/-- C7 (amended).  `copy_filesystem_files` checks the kill signal once,
starts the reporter, then duplicates every enumerated file, in enumeration
order, via `shutil.copy2` (timestamp-preserving) into
`target ++ path.replace(source, "")` — the path with every occurrence of
the source-mountpoint string removed, which equals the relative-path-
preserving destination whenever the mountpoint string occurs in the path
only as its leading prefix.  An I/O failure on any single file aborts the
whole copy at that file (no best-effort skip, nothing after it is copied,
the reporter's stop flag is not set) and surfaces as an exception carrying
the failing path. -/
theorem uniflash_c7_amended (env : Env) (s t : String)
    (hk : (env.guiPresent && env.guiKill) = false) :
    ((∀ q ∈ walkPaths env.copyWalk, env.copyFail q = false) →
      copy_filesystem_files env s t =
        ⟨.ok (), .killCheck :: .reporterStart ::
          (((walkPaths env.copyWalk).map fun q => .copyFile q (copyDest s t q)) ++
            [.reporterStopSet])⟩) ∧
    (∀ (l : List String) (q : String) (r : List String),
      walkPaths env.copyWalk = l ++ q :: r →
      (∀ x ∈ l, env.copyFail x = false) → env.copyFail q = true →
      copy_filesystem_files env s t =
        ⟨.error (.pyError (copy2ErrMsg q)), .killCheck :: .reporterStart ::
          (l.map fun x => .copyFile x (copyDest s t x))⟩) ∧
    ∀ (p : String) (rdata : List Char), p.data = s.data ++ rdata →
      s.data ≠ [] → occursIn s.data rdata = false →
      copyDest s t p = stripDest s t p := by
  refine ⟨?_, ?_, fun p rdata h1 h2 h3 => copyDest_of_only_leading s t p rdata h1 h2 h3⟩
  · intro h
    exact copy_files_eq_ok env s t hk h
  · intro l q r hwalk hl hq
    unfold copy_filesystem_files
    rw [hwalk, copyLoop_fail env s t l q r hl hq]
    simp [hk, emit]

/-- Witness for C7: a concrete failure-free copy produces exactly the
enumerated copy events. -/
theorem uniflash_c7_witness :
    copy_filesystem_files envC7w "m" "t" =
      ⟨.ok (), .killCheck :: .reporterStart ::
        (((walkPaths envC7w.copyWalk).map fun q => .copyFile q (copyDest "m" "t" q)) ++
          [.reporterStopSet])⟩ :=
  (uniflash_c7_amended envC7w "m" "t" rfl).1 (by decide)
